import Mathlib

/-
Shallow embedding of `src/db_cleanup.py`: a one-shot SQLite migration that
backs up the `aircraft_data` table, drops and recreates the `aircraft`
table, migrates trimmed rows from the backup, builds indexes, optimizes,
and verifies a non-zero row count.  Tables are modelled as optional lists
of rows (`none` = the table does not exist); each migration step is a
function `DB → Except Err DB`, and the connection lifecycle of `main` /
`with DatabaseCleaner(...)` is modelled by `mainRun`.
-/

namespace DbCleanup

/-- True exactly on the space character U+0020, the only character the
SQLite `TRIM(X)` one-argument form removes. -/
def isSpaceChar (c : Char) : Bool := c.toNat == 32

/-- Remove leading spaces from a character list. -/
def dropSpaces : List Char → List Char
  | [] => []
  | c :: cs => if isSpaceChar c then dropSpaces cs else c :: cs

/-- SQLite `TRIM(X)`: remove leading and trailing space characters
(U+0020 only; tabs, newlines and other whitespace are kept). -/
def sqlTrim (s : String) : String :=
  ⟨(dropSpaces (dropSpaces s.data.reverse).reverse)⟩

/-- SQL `TRIM` lifted to nullable values: `TRIM(NULL) = NULL`. -/
def sqlTrimOpt (v : Option String) : Option String := v.map sqlTrim

/-- Remove leading whitespace characters (space, TAB, CR, LF) from a
character list. -/
def dropWhitespace : List Char → List Char
  | [] => []
  | c :: cs => if c.isWhitespace then dropWhitespace cs else c :: cs

/-- Modelled from the spec: the spec's testable property speaks of removing
leading and trailing *whitespace* (not just spaces); this whitespace trim
is used only to compare the spec's wording against the code's `TRIM`. -/
def specTrim (s : String) : String :=
  ⟨(dropWhitespace (dropWhitespace s.data.reverse).reverse)⟩

/-- Row of the source table `aircraft_data` (and of its snapshot
`aircraft_data_backup`): loosely typed, every column nullable. -/
structure SrcRow where
  icao24 : Option String
  nNumber : Option String
  manufacturer : Option String
  model : Option String
  operatorName : Option String
  NAME : Option String
  CITY : Option String
  STATE : Option String
  typeAircraft : Option String
  typeRegistrant : Option String
  createdAt : Option String
  updatedAt : Option String
deriving DecidableEq, Repr

/-- Row of the target table `aircraft` (the `id` autoincrement key is
omitted; no claim mentions it). -/
structure AcRow where
  icao24 : Option String
  nNumber : Option String
  manufacturer : Option String
  model : Option String
  operatorName : Option String
  NAME : Option String
  CITY : Option String
  STATE : Option String
  aircraftType : Option String
  ownerType : Option String
  createdAt : Option String
  updatedAt : Option String
deriving DecidableEq, Repr

/-- The `WHERE manufacturer IS NOT NULL AND TRIM(manufacturer) != ''`
filter of `migrate_data`. -/
def passRow (r : SrcRow) : Bool :=
  match r.manufacturer with
  | none => false
  | some m => sqlTrim m != ""

/-- The SELECT list of `migrate_data`: every textual column trimmed,
`TYPE AIRCRAFT` mapped to `aircraft_type`, `TYPE REGISTRANT` mapped to
`owner_type`, timestamps defaulted to `CURRENT_TIMESTAMP` (the `now`
parameter) via `COALESCE`. -/
def cleanRow (now : String) (r : SrcRow) : AcRow :=
  { icao24 := sqlTrimOpt r.icao24
    nNumber := sqlTrimOpt r.nNumber
    manufacturer := sqlTrimOpt r.manufacturer
    model := sqlTrimOpt r.model
    operatorName := sqlTrimOpt r.operatorName
    NAME := sqlTrimOpt r.NAME
    CITY := sqlTrimOpt r.CITY
    STATE := sqlTrimOpt r.STATE
    aircraftType := sqlTrimOpt r.typeAircraft
    ownerType := sqlTrimOpt r.typeRegistrant
    createdAt := some (r.createdAt.getD now)
    updatedAt := some (r.updatedAt.getD now) }

/-- Database state: the three relations the script touches; `none` means
the table does not exist in the file. -/
structure DB where
  aircraft_data : Option (List SrcRow)
  aircraft_data_backup : Option (List SrcRow)
  aircraft : Option (List AcRow)
deriving DecidableEq, Repr

/-- Errors a run can surface: `connError` stands for the sqlite3 error
raised while opening the file or applying pragmas (the spec's
`ConnectionError`), `noSuchTable`/`tableExists`/`uniqueViolation` for the
corresponding SQL failures, and `migrationFailed` for the generic
`Exception("Migration failed - no records in new table")` raised by
`verify_migration`. -/
inductive Err where
  | connError : Err
  | noSuchTable : String → Err
  | tableExists : String → Err
  | uniqueViolation : Err
  | migrationFailed : Err
deriving DecidableEq, Repr

/-- The non-null `icao24` values of a list of `aircraft` rows, in order;
the SQLite `UNIQUE` constraint requires these to be pairwise distinct
(NULLs are exempt). -/
def icaoValues (rows : List AcRow) : List String := rows.filterMap (·.icao24)

/-- Step 2, `backup_existing_data`: count `aircraft_data`; when positive,
`CREATE TABLE IF NOT EXISTS aircraft_data_backup AS SELECT * FROM
aircraft_data` (a no-op when the backup already exists). -/
def backup_existing_data (db : DB) : Except Err DB :=
  match db.aircraft_data with
  | none => .error (.noSuchTable "aircraft_data")
  | some src =>
    if src.length > 0 then
      match db.aircraft_data_backup with
      | some _ => .ok db
      | none => .ok { db with aircraft_data_backup := some src }
    else .ok db

/-- Step 3, `drop_existing_tables`: `DROP TABLE IF EXISTS aircraft`. -/
def drop_existing_tables (db : DB) : Except Err DB :=
  .ok { db with aircraft := none }

/-- Step 4, `create_new_table`: `CREATE TABLE aircraft (...)` (no
IF NOT EXISTS, so it fails when the table already exists). -/
def create_new_table (db : DB) : Except Err DB :=
  match db.aircraft with
  | some _ => .error (.tableExists "aircraft")
  | none => .ok { db with aircraft := some [] }

/-- Step 5, `migrate_data`: single `INSERT INTO aircraft ... SELECT
TRIM(...) FROM aircraft_data_backup WHERE manufacturer IS NOT NULL AND
TRIM(manufacturer) != ''`.  The statement succeeds only if no inserted
non-null `icao24` collides with another inserted one or with an existing
row (the `UNIQUE` constraint with default ABORT semantics); on violation
the whole statement is rolled back, leaving the table unchanged. -/
def migrate_data (now : String) (db : DB) : Except Err DB :=
  match db.aircraft_data_backup with
  | none => .error (.noSuchTable "aircraft_data_backup")
  | some b =>
    match db.aircraft with
    | none => .error (.noSuchTable "aircraft")
    | some existing =>
      let newRows := (b.filter passRow).map (cleanRow now)
      if (icaoValues newRows).Nodup ∧ ∀ v ∈ icaoValues newRows, v ∉ icaoValues existing then
        .ok { db with aircraft := some (existing ++ newRows) }
      else .error .uniqueViolation

/-- Step 6, `create_indexes`: `CREATE INDEX IF NOT EXISTS ... ON
aircraft(...)`; fails only if the `aircraft` table is missing, and never
changes relation contents. -/
def create_indexes (db : DB) : Except Err DB :=
  match db.aircraft with
  | none => .error (.noSuchTable "aircraft")
  | some _ => .ok db

/-- Step 7, `optimize_database`: `ANALYZE; VACUUM;` — no effect on
relation contents. -/
def optimize_database (db : DB) : Except Err DB := .ok db

/-- Step 8, `verify_migration`: count `aircraft`, count
`aircraft_data_backup` (in that order), then raise the generic migration
error exactly when the `aircraft` count is zero. -/
def verify_migration (db : DB) : Except Err DB :=
  match db.aircraft with
  | none => .error (.noSuchTable "aircraft")
  | some rows =>
    match db.aircraft_data_backup with
    | none => .error (.noSuchTable "aircraft_data_backup")
    | some _ =>
      if rows.length = 0 then .error .migrationFailed else .ok db

/-- Outcome of running a sequence of steps: the result, the database
state when control left the sequence (unchanged past the failing step,
since each modelled statement is atomic), and the names of the steps that
started executing. -/
structure RunResult where
  res : Except Err Unit
  db : DB
  log : List String
deriving Repr

/-- Run named steps in order, stopping at the first failure. -/
def runSteps : List (String × (DB → Except Err DB)) → DB → RunResult
  | [], db => ⟨.ok (), db, []⟩
  | (n, f) :: rest, db =>
    match f db with
    | .error e => ⟨.error e, db, [n]⟩
    | .ok d' =>
      let r := runSteps rest d'
      ⟨r.res, r.db, n :: r.log⟩

/-- The fixed step sequence of `cleanup_database`. -/
def cleanupSteps (now : String) : List (String × (DB → Except Err DB)) :=
  [("backup_existing_data", backup_existing_data),
   ("drop_existing_tables", drop_existing_tables),
   ("create_new_table", create_new_table),
   ("migrate_data", migrate_data now),
   ("create_indexes", create_indexes),
   ("optimize_database", optimize_database),
   ("verify_migration", verify_migration)]

/-- `DatabaseCleaner.cleanup_database`: the eight-step sequence (after
connect), re-raising the first failure. -/
def cleanup_database (now : String) (db : DB) : Except Err DB :=
  let r := runSteps (cleanupSteps now) db
  match r.res with
  | .ok _ => .ok r.db
  | .error e => .error e

/-- Failure injection for `connect`: whether `sqlite3.connect` raises,
and whether the pragma `executescript` raises after a successful open. -/
structure ConnEnv where
  openFails : Bool
  pragmaFails : Bool
deriving DecidableEq, Repr

/-- Observable outcome of one invocation of `main`: the propagated result,
the final database state, whether a connection object was ever opened,
and how many times it was closed. -/
structure MainResult where
  res : Except Err Unit
  db : DB
  opened : Bool
  closes : Nat
  log : List String
deriving Repr

/-- `main` with the `with DatabaseCleaner(db_path) as cleaner` block:
`__enter__` calls `connect`; if `connect` raises (open failure or pragma
failure) the `with` statement never calls `__exit__`, so no close happens;
once `__enter__` returns, `__exit__` closes the connection exactly once on
every exit path of `cleanup_database`. -/
def mainRun (env : ConnEnv) (now : String) (db : DB) : MainResult :=
  if env.openFails then ⟨.error .connError, db, false, 0, []⟩
  else if env.pragmaFails then ⟨.error .connError, db, true, 0, []⟩
  else
    let r := runSteps (cleanupSteps now) db
    ⟨r.res, r.db, true, 1, r.log⟩

/-- The backup relation `migrate_data` will read, as left by
`backup_existing_data`: a pre-existing backup wins; otherwise the source
is snapshotted only when it is non-empty. -/
def effBackup (src : List SrcRow) (bk : Option (List SrcRow)) : Option (List SrcRow) :=
  match bk with
  | some b => some b
  | none => if src.length > 0 then some src else none

/-- Closed form of the whole `cleanup_database` sequence, proved equal to
the step-by-step run below and used to reason about successful runs. -/
def cleanupModel (now : String) (db : DB) : Except Err DB :=
  match db.aircraft_data with
  | none => .error (.noSuchTable "aircraft_data")
  | some src =>
    match effBackup src db.aircraft_data_backup with
    | none => .error (.noSuchTable "aircraft_data_backup")
    | some b =>
      let newRows := (b.filter passRow).map (cleanRow now)
      if (icaoValues newRows).Nodup then
        if newRows.length = 0 then .error .migrationFailed
        else .ok ⟨some src, some b, some newRows⟩
      else .error .uniqueViolation

/-- Uniqueness invariant of the `aircraft` table: the non-null `icao24`
values are pairwise distinct. -/
def uniqueIcao (rows : List AcRow) : Prop := (icaoValues rows).Nodup

instance (rows : List AcRow) : Decidable (uniqueIcao rows) :=
  inferInstanceAs (Decidable (icaoValues rows).Nodup)

/-- A later `INSERT INTO aircraft` of one row, as admitted by the schema:
rejected exactly when the new row's non-null `icao24` already occurs. -/
def insertAircraft (rows : List AcRow) (r : AcRow) : Except Err (List AcRow) :=
  match r.icao24 with
  | none => .ok (rows ++ [r])
  | some v =>
    if v ∈ icaoValues rows then .error .uniqueViolation
    else .ok (rows ++ [r])

/-- A later `UPDATE` of row `i` to the field values of `r`, as admitted by
the schema: rejected exactly when the new non-null `icao24` collides with
a *different* row; the `update_aircraft_timestamp` trigger stamps
`updated_at` with the current time. -/
def updateAircraft (now : String) (rows : List AcRow) (i : Nat) (r : AcRow) : Except Err (List AcRow) :=
  if i < rows.length then
    match r.icao24 with
    | none => .ok (rows.set i { r with updatedAt := some now })
    | some v =>
      if v ∈ icaoValues (rows.eraseIdx i) then .error .uniqueViolation
      else .ok (rows.set i { r with updatedAt := some now })
  else .ok rows

/-- Decidable equality on `Except`, needed to evaluate concrete runs. -/
instance instDecEqExcept {ε α : Type} [DecidableEq ε] [DecidableEq α] :
    DecidableEq (Except ε α) := fun a b =>
  match a, b with
  | .ok x, .ok y =>
    if h : x = y then isTrue (by rw [h]) else isFalse (fun hc => h (Except.ok.inj hc))
  | .error x, .error y =>
    if h : x = y then isTrue (by rw [h]) else isFalse (fun hc => h (Except.error.inj hc))
  | .ok _, .error _ => isFalse (fun hc => Except.noConfusion hc)
  | .error _, .ok _ => isFalse (fun hc => Except.noConfusion hc)

/-- Sample source row with untrimmed spaces that passes the manufacturer
filter (the spec's worked example). -/
def rowA : SrcRow :=
  ⟨some " ABC123 ", some "N123", some "Cessna", some "172", none, none, none, none,
   some "Fixed wing", some "Individual", none, none⟩

/-- Sample source row with a space-only manufacturer (filtered out). -/
def rowBlank : SrcRow :=
  ⟨some "ZZ999", none, some "   ", none, none, none, none, none, none, none, none, none⟩

/-- Sample source row whose `icao24` starts with a TAB character. -/
def rowTab : SrcRow :=
  ⟨some "\tZ9", none, some "Piper", none, none, none, none, none, none, none, none, none⟩

/-- Sample row whose `icao24` trims to `DUP1`. -/
def rowD1 : SrcRow :=
  ⟨some " DUP1", none, some "Beech", none, none, none, none, none, none, none, none, none⟩

/-- Second sample row whose `icao24` also trims to `DUP1`. -/
def rowD2 : SrcRow :=
  ⟨some "DUP1 ", none, some "Mooney", none, none, none, none, none, none, none, none, none⟩

/-- Fresh database: two source rows, no backup, no target table. -/
def dbFresh : DB := ⟨some [rowA, rowBlank], none, none⟩

/-- Fresh database whose single source row has a TAB inside `icao24`. -/
def dbTab : DB := ⟨some [rowTab], none, none⟩

/-- Fresh database with an empty source relation. -/
def dbEmptySrc : DB := ⟨some [], none, none⟩

/-- Fresh database whose rows all fail the manufacturer filter. -/
def dbBlank : DB := ⟨some [rowBlank], none, none⟩

/-- Database whose backup holds two rows with colliding trimmed `icao24`. -/
def dbDup : DB := ⟨some [rowD1, rowD2], some [rowD1, rowD2], none⟩

/-- The migrated form of `rowA`. -/
def acA : AcRow := cleanRow "t0" rowA

/-- Sample target row with `icao24 = B1`. -/
def acB : AcRow :=
  ⟨some "B1", none, some "Beech", none, none, none, none, none, none, none, some "t0", some "t0"⟩

/-- Sample target row with `icao24 = C2`. -/
def acC : AcRow :=
  ⟨some "C2", none, some "Cirrus", none, none, none, none, none, none, none, some "t0", some "t0"⟩

/-- Expected table contents after updating row 0 of `[acA, acB]` to `acC`. -/
def updRows : List AcRow := [{ acC with updatedAt := some "t1" }, acB]

/-- Expected final state of a run on `dbFresh` with timestamp `t0`. -/
def s1Fresh : DB := ⟨some [rowA, rowBlank], some [rowA, rowBlank], some [cleanRow "t0" rowA]⟩

/-- Database state used to exercise `verify_migration` on its own. -/
def dbVer : DB := ⟨none, some [rowA], some [acA]⟩

@[simp] theorem icaoValues_nil : icaoValues [] = [] := rfl

@[simp] theorem icaoValues_append (l1 l2 : List AcRow) :
    icaoValues (l1 ++ l2) = icaoValues l1 ++ icaoValues l2 :=
  List.filterMap_append l1 l2 _

/-- Full evaluation of the step sequence of `cleanup_database` on an
arbitrary database state. -/
theorem runSteps_cleanup_eq (now : String) (db : DB) :
    runSteps (cleanupSteps now) db =
    match db.aircraft_data with
    | none => ⟨.error (.noSuchTable "aircraft_data"), db, ["backup_existing_data"]⟩
    | some src =>
      match effBackup src db.aircraft_data_backup with
      | none =>
        ⟨.error (.noSuchTable "aircraft_data_backup"), ⟨some src, none, some []⟩,
          ["backup_existing_data", "drop_existing_tables", "create_new_table", "migrate_data"]⟩
      | some b =>
        let newRows := (b.filter passRow).map (cleanRow now)
        if (icaoValues newRows).Nodup then
          if newRows.length = 0 then
            ⟨.error .migrationFailed, ⟨some src, some b, some newRows⟩,
              ["backup_existing_data", "drop_existing_tables", "create_new_table",
               "migrate_data", "create_indexes", "optimize_database", "verify_migration"]⟩
          else
            ⟨.ok (), ⟨some src, some b, some newRows⟩,
              ["backup_existing_data", "drop_existing_tables", "create_new_table",
               "migrate_data", "create_indexes", "optimize_database", "verify_migration"]⟩
        else
          ⟨.error .uniqueViolation, ⟨some src, some b, some []⟩,
            ["backup_existing_data", "drop_existing_tables", "create_new_table", "migrate_data"]⟩ := by
  obtain ⟨src?, bk?, ac?⟩ := db
  cases src? with
  | none => rfl
  | some src =>
    cases bk? with
    | some b =>
      by_cases hn : (icaoValues ((b.filter passRow).map (cleanRow now))).Nodup <;>
        by_cases hl : src.length > 0 <;>
        simp [cleanupSteps, runSteps, backup_existing_data, drop_existing_tables,
          create_new_table, migrate_data, create_indexes, optimize_database,
          verify_migration, effBackup, hl, hn] <;>
        (try (split_ifs <;> simp_all))
    | none =>
      by_cases hl : src.length > 0
      · by_cases hn : (icaoValues ((src.filter passRow).map (cleanRow now))).Nodup <;>
          simp [cleanupSteps, runSteps, backup_existing_data, drop_existing_tables,
            create_new_table, migrate_data, create_indexes, optimize_database,
            verify_migration, effBackup, hl, hn] <;>
          (try (split_ifs <;> simp_all))
      · simp [cleanupSteps, runSteps, backup_existing_data, drop_existing_tables,
          create_new_table, migrate_data, create_indexes, optimize_database,
          verify_migration, effBackup, hl]

/-- The step-by-step run agrees with the closed-form `cleanupModel`. -/
theorem cleanup_database_eq_model (now : String) (db : DB) :
    cleanup_database now db = cleanupModel now db := by
  unfold cleanup_database cleanupModel
  rw [runSteps_cleanup_eq]
  cases hsrc : db.aircraft_data with
  | none => rfl
  | some src =>
    cases hb : effBackup src db.aircraft_data_backup with
    | none => simp [hb]
    | some b =>
      by_cases hn : (icaoValues ((b.filter passRow).map (cleanRow now))).Nodup <;>
        simp [hb, hn] <;> (try (split_ifs <;> simp_all))

theorem icaoValues_cons (x : AcRow) (l : List AcRow) :
    icaoValues (x :: l) = x.icao24.toList ++ icaoValues l := by
  cases h : x.icao24 <;> simp [icaoValues, List.filterMap_cons, h]

theorem icaoValues_map_cleanRow (n : String) (l : List SrcRow) :
    icaoValues (l.map (cleanRow n)) = l.filterMap (fun r => sqlTrimOpt r.icao24) := by
  simp only [icaoValues, List.filterMap_map]
  rfl

theorem nodup_opt_middle (A B : List String) (y : Option String)
    (h : (A ++ B).Nodup) (hy : ∀ v, y = some v → v ∉ A ++ B) :
    (A ++ (y.toList ++ B)).Nodup := by
  cases y with
  | none => simpa using h
  | some v =>
    have hm : (A ++ v :: B).Nodup :=
      List.nodup_middle.mpr (List.nodup_cons.mpr ⟨hy v rfl, h⟩)
    simpa using hm

/-- Inversion of a successful run: the exact shape of the final state. -/
theorem cleanup_ok_inv (now : String) (db s1 : DB)
    (hok : cleanup_database now db = .ok s1) :
    ∃ src b, db.aircraft_data = some src ∧
      effBackup src db.aircraft_data_backup = some b ∧
      (icaoValues ((b.filter passRow).map (cleanRow now))).Nodup ∧
      ((b.filter passRow).map (cleanRow now)).length ≠ 0 ∧
      s1 = ⟨some src, some b, some ((b.filter passRow).map (cleanRow now))⟩ := by
  rw [cleanup_database_eq_model] at hok
  unfold cleanupModel at hok
  cases hsrc : db.aircraft_data with
  | none =>
    simp only [hsrc] at hok
    exact Except.noConfusion hok
  | some src =>
    simp only [hsrc] at hok
    cases hb : effBackup src db.aircraft_data_backup with
    | none =>
      simp only [hb] at hok
      exact Except.noConfusion hok
    | some b =>
      simp only [hb] at hok
      split_ifs at hok with hn hz
      exact ⟨src, b, rfl, hb, hn, hz, (Except.ok.inj hok).symm⟩

/-- A run on a state whose source exists, whose effective backup is `b`,
and whose filtered rows are non-empty and collision-free, succeeds with
the expected final state. -/
theorem cleanup_ok_of (now : String) (db : DB) (src b : List SrcRow)
    (hsrc : db.aircraft_data = some src)
    (hb : effBackup src db.aircraft_data_backup = some b)
    (hn : (icaoValues ((b.filter passRow).map (cleanRow now))).Nodup)
    (hz : ((b.filter passRow).map (cleanRow now)).length ≠ 0) :
    cleanup_database now db =
      .ok ⟨some src, some b, some ((b.filter passRow).map (cleanRow now))⟩ := by
  rw [cleanup_database_eq_model]
  unfold cleanupModel
  simp only [hsrc, hb]
  rw [if_pos hn, if_neg hz]

/-- C1: on a fresh database whose source relation has at least one row
with non-null, non-empty-after-trimming manufacturer, a completed
migration leaves the backup equal to the source, leaves the target
relation with exactly as many rows as the backup has rows passing the
manufacturer filter, and every target row derives from a passing row, so
rows failing the filter appear nowhere in the target. -/
theorem migrated_count_matches_filter (now : String) (src : List SrcRow) (db s1 : DB)
    (hsrc : db.aircraft_data = some src)
    (hbk : db.aircraft_data_backup = none)
    (hac : db.aircraft = none)
    (hne : ∃ r ∈ src, passRow r = true)
    (hok : cleanup_database now db = .ok s1) :
    s1.aircraft_data_backup = some src ∧
    (s1.aircraft.getD []).length = src.countP passRow ∧
    ∀ a ∈ s1.aircraft.getD [], ∃ r ∈ src, passRow r = true ∧ a = cleanRow now r := by
  obtain ⟨src', b, hsrc', hb, hn, hz, rfl⟩ := cleanup_ok_inv now db s1 hok
  obtain ⟨r, hr, _⟩ := hne
  rw [hsrc, Option.some.injEq] at hsrc'
  subst hsrc'
  have hl : src.length > 0 := List.length_pos.mpr (by rintro rfl; exact (List.not_mem_nil r) hr)
  rw [hbk] at hb
  unfold effBackup at hb
  rw [if_pos hl, Option.some.injEq] at hb
  subst hb
  refine ⟨rfl, ?_, ?_⟩
  · simp [List.countP_eq_length_filter]
  · intro a ha
    simp only [Option.getD_some, List.mem_map, List.mem_filter] at ha
    obtain ⟨r', ⟨hr'mem, hr'pass⟩, rfl⟩ := ha
    exact ⟨r', hr'mem, hr'pass, rfl⟩

/-- Witness for C1 on a concrete two-row fresh database. -/
theorem migrated_count_matches_filter_witness :
    s1Fresh.aircraft_data_backup = some [rowA, rowBlank] ∧
    (s1Fresh.aircraft.getD []).length = [rowA, rowBlank].countP passRow ∧
    ∀ a ∈ s1Fresh.aircraft.getD [],
      ∃ r ∈ [rowA, rowBlank], passRow r = true ∧ a = cleanRow "t0" r :=
  migrated_count_matches_filter "t0" [rowA, rowBlank] dbFresh s1Fresh rfl rfl rfl
    ⟨rowA, by decide, by decide⟩ (by decide)

/-- C2 counterexample: a leading TAB is preserved by the migration (SQL
`TRIM` removes only spaces), so the stored `icao24` of the migrated row is
not the source value with leading/trailing whitespace removed. -/
theorem trim_whitespace_cex :
    (runSteps (cleanupSteps "t0") dbTab).res = .ok () ∧
    ((runSteps (cleanupSteps "t0") dbTab).db.aircraft.getD []).map (·.icao24) = [some "\tZ9"] ∧
    Option.map specTrim (rowTab.icao24.getD "") = some "Z9" ∧
    (some "\tZ9" : Option String) ≠ some "Z9" := by
  refine ⟨by decide, by decide, by decide, by decide⟩

/-- C2 amended: every migrated textual field equals the source field with
leading and trailing *space characters* removed (SQL `TRIM` semantics);
internal characters, including internal and non-space whitespace, are
preserved. -/
theorem migrated_fields_sqltrimmed (now : String) (db s1 : DB)
    (hok : cleanup_database now db = .ok s1) :
    ∀ a ∈ s1.aircraft.getD [], ∃ s ∈ s1.aircraft_data_backup.getD [],
      passRow s = true ∧
      a.icao24 = sqlTrimOpt s.icao24 ∧
      a.nNumber = sqlTrimOpt s.nNumber ∧
      a.manufacturer = sqlTrimOpt s.manufacturer ∧
      a.model = sqlTrimOpt s.model ∧
      a.operatorName = sqlTrimOpt s.operatorName ∧
      a.NAME = sqlTrimOpt s.NAME ∧
      a.CITY = sqlTrimOpt s.CITY ∧
      a.STATE = sqlTrimOpt s.STATE ∧
      a.aircraftType = sqlTrimOpt s.typeAircraft ∧
      a.ownerType = sqlTrimOpt s.typeRegistrant := by
  obtain ⟨src, b, hsrc, hb, hn, hz, rfl⟩ := cleanup_ok_inv now db s1 hok
  intro a ha
  simp only [Option.getD_some, List.mem_map, List.mem_filter] at ha
  obtain ⟨s, ⟨hsmem, hspass⟩, rfl⟩ := ha
  exact ⟨s, hsmem, hspass, rfl, rfl, rfl, rfl, rfl, rfl, rfl, rfl, rfl, rfl⟩

/-- Witness for the amended C2 at the concrete migrated row of `dbFresh`. -/
theorem migrated_fields_sqltrimmed_witness :
    ∃ s ∈ s1Fresh.aircraft_data_backup.getD [],
      passRow s = true ∧
      acA.icao24 = sqlTrimOpt s.icao24 ∧
      acA.nNumber = sqlTrimOpt s.nNumber ∧
      acA.manufacturer = sqlTrimOpt s.manufacturer ∧
      acA.model = sqlTrimOpt s.model ∧
      acA.operatorName = sqlTrimOpt s.operatorName ∧
      acA.NAME = sqlTrimOpt s.NAME ∧
      acA.CITY = sqlTrimOpt s.CITY ∧
      acA.STATE = sqlTrimOpt s.STATE ∧
      acA.aircraftType = sqlTrimOpt s.typeAircraft ∧
      acA.ownerType = sqlTrimOpt s.typeRegistrant :=
  migrated_fields_sqltrimmed "t0" dbFresh s1Fresh (by decide) acA (by decide)

/-- C5: with both the target and backup relations present (as they are
whenever `verify_migration` runs inside the procedure), verification
raises the generic migration error exactly when the target row count is
zero, and otherwise returns the state unchanged, performing no further
checks. -/
theorem verify_raises_iff_empty (db : DB) (rows : List AcRow) (b : List SrcRow)
    (ha : db.aircraft = some rows) (hb : db.aircraft_data_backup = some b) :
    (verify_migration db = .error .migrationFailed ↔ rows.length = 0) ∧
    (rows.length ≠ 0 → verify_migration db = .ok db) := by
  unfold verify_migration
  simp only [ha, hb]
  by_cases h : rows.length = 0 <;> simp [h]

/-- Witness for C5 at a concrete state with one migrated row. -/
theorem verify_raises_iff_empty_witness : verify_migration dbVer = .ok dbVer :=
  (verify_raises_iff_empty dbVer [acA] [rowA] rfl rfl).2 (by decide)

/-- C6 counterexample: when opening the file succeeds but applying the
pragmas raises, `__enter__` propagates the exception before the `with`
body is entered, `__exit__` never runs, and the opened connection is
closed zero times, not once. -/
theorem pragma_failure_leaks_connection_cex :
    (mainRun ⟨false, true⟩ "t0" dbFresh).opened = true ∧
    (mainRun ⟨false, true⟩ "t0" dbFresh).closes = 0 ∧
    (mainRun ⟨false, true⟩ "t0" dbFresh).res = .error .connError :=
  ⟨rfl, rfl, rfl⟩

/-- C6 amended: on every exit path on which connection establishment
(open plus pragmas) succeeded — normal completion, verification failure,
or any step exception — the connection is closed exactly once before
control returns; if opening the file itself fails no connection exists,
and if the pragmas fail after a successful open the connection is left
unclosed. -/
theorem connection_closed_once_after_connect (env : ConnEnv) (now : String) (db : DB)
    (ho : env.openFails = false) (hp : env.pragmaFails = false) :
    (mainRun env now db).closes = 1 ∧ (mainRun env now db).opened = true := by
  simp [mainRun, ho, hp]

/-- Witness for the amended C6 on a successful connection. -/
theorem connection_closed_once_after_connect_witness :
    (mainRun ⟨false, false⟩ "t0" dbFresh).closes = 1 ∧
    (mainRun ⟨false, false⟩ "t0" dbFresh).opened = true :=
  connection_closed_once_after_connect ⟨false, false⟩ "t0" dbFresh rfl rfl

/-- C7: if opening the database file or applying a pragma fails, the
connection error propagates to the caller, no migration step starts, and
the database state is unchanged. -/
theorem connect_failure_aborts_run (env : ConnEnv) (now : String) (db : DB)
    (h : env.openFails = true ∨ env.pragmaFails = true) :
    (mainRun env now db).res = .error .connError ∧
    (mainRun env now db).db = db ∧
    (mainRun env now db).log = [] := by
  unfold mainRun
  rcases h with h | h
  · simp [h]
  · by_cases ho : env.openFails <;> simp [ho, h]

/-- Witness for C7 with a failing open. -/
theorem connect_failure_aborts_run_witness :
    (mainRun ⟨true, false⟩ "t0" dbFresh).res = .error .connError ∧
    (mainRun ⟨true, false⟩ "t0" dbFresh).db = dbFresh ∧
    (mainRun ⟨true, false⟩ "t0" dbFresh).log = [] :=
  connect_failure_aborts_run ⟨true, false⟩ "t0" dbFresh (Or.inl rfl)

/-- C8: no run — successful or failed, with or without a connection
failure — ever modifies the source relation `aircraft_data`. -/
theorem source_relation_untouched (env : ConnEnv) (now : String) (db : DB) :
    (mainRun env now db).db.aircraft_data = db.aircraft_data := by
  have hrun : (runSteps (cleanupSteps now) db).db.aircraft_data = db.aircraft_data := by
    rw [runSteps_cleanup_eq]
    cases hsrc : db.aircraft_data with
    | none => simp [hsrc]
    | some src =>
      cases hb : effBackup src db.aircraft_data_backup with
      | none => simp [hb]
      | some b =>
        by_cases hn : (icaoValues ((b.filter passRow).map (cleanRow now))).Nodup <;>
          simp [hb, hn] <;> (try (split_ifs <;> rfl))
  unfold mainRun
  by_cases ho : env.openFails <;> by_cases hp : env.pragmaFails <;> simp [ho, hp, hrun]

/-- C3: after a successful full run, a second full run on the resulting
state also succeeds, leaves the backup relation (and hence its row count)
unchanged, and rebuilds the target relation from the current backup alone
— no rows accumulate across the two runs. -/
theorem second_run_idempotent (now now2 : String) (db s1 : DB)
    (hok : cleanup_database now db = .ok s1) :
    ∃ s2, cleanup_database now2 s1 = .ok s2 ∧
      s2.aircraft_data_backup = s1.aircraft_data_backup ∧
      s2.aircraft =
        some (((s1.aircraft_data_backup.getD []).filter passRow).map (cleanRow now2)) := by
  obtain ⟨src, b, hsrc, hb, hn, hz, rfl⟩ := cleanup_ok_inv now db s1 hok
  refine ⟨⟨some src, some b, some ((b.filter passRow).map (cleanRow now2))⟩, ?_, rfl, rfl⟩
  refine cleanup_ok_of now2
    ⟨some src, some b, some ((b.filter passRow).map (cleanRow now))⟩ src b rfl rfl ?_ ?_
  · rw [icaoValues_map_cleanRow] at hn ⊢
    exact hn
  · simpa using hz

/-- Witness for C3: rerunning on the concrete post-run state succeeds. -/
theorem second_run_idempotent_witness :
    ∃ s2, cleanup_database "t1" s1Fresh = .ok s2 ∧
      s2.aircraft_data_backup = s1Fresh.aircraft_data_backup ∧
      s2.aircraft =
        some (((s1Fresh.aircraft_data_backup.getD []).filter passRow).map (cleanRow "t1")) :=
  second_run_idempotent "t0" "t1" dbFresh s1Fresh (by decide)

/-- C4 counterexample: on a fresh database with an empty source relation
the run fails at the migrate step with a missing-table error (the backup
was never created), not at the verification step with the generic
migration error. -/
theorem empty_source_fails_before_verify_cex :
    (runSteps (cleanupSteps "t0") dbEmptySrc).res = .error (.noSuchTable "aircraft_data_backup") ∧
    (runSteps (cleanupSteps "t0") dbEmptySrc).log =
      ["backup_existing_data", "drop_existing_tables", "create_new_table", "migrate_data"] ∧
    cleanup_database "t0" dbEmptySrc ≠ .error .migrationFailed :=
  ⟨by decide, by decide, by decide⟩

/-- C4 amended: on a fresh database (no pre-existing backup), an empty
source relation makes the run abort at the migrate step because the
backup relation was never created, while a non-empty source all of whose
rows fail the manufacturer filter migrates zero rows and makes the
verification step raise the generic migration error. -/
theorem empty_or_blank_source_behavior (now : String) (src : List SrcRow) (db : DB)
    (hsrc : db.aircraft_data = some src)
    (hbk : db.aircraft_data_backup = none) :
    (src = [] →
      (runSteps (cleanupSteps now) db).res = .error (.noSuchTable "aircraft_data_backup") ∧
      (runSteps (cleanupSteps now) db).log =
        ["backup_existing_data", "drop_existing_tables", "create_new_table", "migrate_data"]) ∧
    (src ≠ [] → (∀ r ∈ src, passRow r = false) →
      cleanup_database now db = .error .migrationFailed) := by
  constructor
  · intro hemp
    rw [runSteps_cleanup_eq]
    simp [hsrc, hbk, effBackup, hemp]
  · intro hne hall
    rw [cleanup_database_eq_model]
    unfold cleanupModel
    have hl : src.length > 0 := List.length_pos.mpr hne
    have hfil : src.filter passRow = [] := by
      rw [List.filter_eq_nil_iff]
      intro a ha
      simp [hall a ha]
    simp [hsrc, hbk, effBackup, hl, hfil]

/-- Witness for the amended C4: one space-only-manufacturer row makes
verification raise. -/
theorem empty_or_blank_source_behavior_witness :
    cleanup_database "t0" dbBlank = .error .migrationFailed :=
  (empty_or_blank_source_behavior "t0" [rowBlank] dbBlank rfl rfl).2 (by decide) (by decide)

/-- C9: a successful run leaves the non-null `icao24` values of the
target relation pairwise distinct, and the invariant is preserved by
every later insert and every later update the schema admits. -/
theorem icao24_unique_invariant :
    (∀ now db s1, cleanup_database now db = .ok s1 → uniqueIcao (s1.aircraft.getD [])) ∧
    (∀ rows r rows', uniqueIcao rows → insertAircraft rows r = .ok rows' → uniqueIcao rows') ∧
    (∀ now rows i r rows', uniqueIcao rows → updateAircraft now rows i r = .ok rows' →
      uniqueIcao rows') := by
  refine ⟨?_, ?_, ?_⟩
  · intro now db s1 hok
    obtain ⟨src, b, hsrc, hb, hn, hz, rfl⟩ := cleanup_ok_inv now db s1 hok
    simpa [uniqueIcao] using hn
  · intro rows r rows' hu hins
    unfold insertAircraft at hins
    cases hic : r.icao24 with
    | none =>
      simp only [hic] at hins
      obtain rfl := Except.ok.inj hins
      simpa [uniqueIcao, icaoValues_append, icaoValues_cons, hic] using hu
    | some v =>
      simp only [hic] at hins
      by_cases hv : v ∈ icaoValues rows
      · rw [if_pos hv] at hins
        exact Except.noConfusion hins
      · rw [if_neg hv] at hins
        obtain rfl := Except.ok.inj hins
        have h2 : ((icaoValues rows) ++ ((some v).toList ++ [])).Nodup := by
          apply nodup_opt_middle _ _ _ (by simpa using hu)
          intro w hw
          obtain rfl : v = w := Option.some.inj hw
          simpa using hv
        simpa [uniqueIcao, icaoValues_append, icaoValues_cons, hic] using h2
  · intro now rows i r rows' hu hupd
    unfold updateAircraft at hupd
    by_cases hi : i < rows.length
    · rw [if_pos hi] at hupd
      have hrows : rows = rows.take i ++ rows[i] :: rows.drop (i + 1) := by
        conv_lhs => rw [← List.take_append_drop i rows]
        rw [List.getElem_cons_drop]
      have hAB :
          ((icaoValues (rows.take i)) ++
            ((rows[i].icao24.toList) ++ icaoValues (rows.drop (i + 1)))).Nodup := by
        have h0 : (icaoValues rows).Nodup := hu
        rw [hrows] at h0
        simp only [icaoValues_append, icaoValues_cons] at h0
        exact h0
      have hASub : ((icaoValues (rows.take i)) ++ icaoValues (rows.drop (i + 1))).Nodup := by
        refine hAB.sublist ?_
        exact List.Sublist.append_left (List.sublist_append_right _ _) _
      cases hic : r.icao24 with
      | none =>
        simp only [hic] at hupd
        obtain rfl := Except.ok.inj hupd
        unfold uniqueIcao
        rw [List.set_eq_take_cons_drop _ hi]
        simpa [icaoValues_append, icaoValues_cons, hic] using hASub
      | some v =>
        simp only [hic] at hupd
        by_cases hv : v ∈ icaoValues (rows.eraseIdx i)
        · rw [if_pos hv] at hupd
          exact Except.noConfusion hupd
        · rw [if_neg hv] at hupd
          obtain rfl := Except.ok.inj hupd
          have hvAB : v ∉ (icaoValues (rows.take i)) ++ icaoValues (rows.drop (i + 1)) := by
            rw [List.eraseIdx_eq_take_drop_succ] at hv
            simpa [icaoValues_append] using hv
          have h2 :=
            nodup_opt_middle _ _ (some v) hASub
              (by intro w hw; obtain rfl : v = w := Option.some.inj hw; exact hvAB)
          unfold uniqueIcao
          rw [List.set_eq_take_cons_drop _ hi]
          simpa [icaoValues_append, icaoValues_cons, hic] using h2
    · rw [if_neg hi] at hupd
      obtain rfl := Except.ok.inj hupd
      exact hu

/-- Witness for C9: the invariant holds after a concrete run, after a
concrete admitted insert, and after a concrete admitted update. -/
theorem icao24_unique_invariant_witness :
    uniqueIcao (s1Fresh.aircraft.getD []) ∧ uniqueIcao [acA, acB] ∧ uniqueIcao updRows :=
  ⟨icao24_unique_invariant.1 "t0" dbFresh s1Fresh (by decide),
   icao24_unique_invariant.2.1 [acA] acB [acA, acB] (by decide) (by decide),
   icao24_unique_invariant.2.2 "t1" [acA, acB] 0 acC updRows (by decide) (by decide)⟩

/-- C10: when the effective backup contains two filter-passing rows whose
non-null `icao24` values trim to the same string, the single insert of
`migrate_data` fails with the unique-constraint violation, the target
relation is left empty (the statement is rolled back, nothing is
deduplicated or partially migrated), and the run aborts before the
verification step. -/
theorem duplicate_icao24_aborts_migration (now : String) (src p q s : List SrcRow)
    (r1 r2 : SrcRow) (t : String) (db : DB)
    (hsrc : db.aircraft_data = some src)
    (hbk : db.aircraft_data_backup = some (p ++ r1 :: q ++ r2 :: s))
    (h1 : passRow r1 = true) (h2 : passRow r2 = true)
    (ht1 : sqlTrimOpt r1.icao24 = some t) (ht2 : sqlTrimOpt r2.icao24 = some t) :
    (runSteps (cleanupSteps now) db).res = .error .uniqueViolation ∧
    (runSteps (cleanupSteps now) db).db.aircraft = some [] ∧
    (runSteps (cleanupSteps now) db).log =
      ["backup_existing_data", "drop_existing_tables", "create_new_table", "migrate_data"] := by
  have hb : effBackup src db.aircraft_data_backup = some (p ++ r1 :: q ++ r2 :: s) := by
    rw [hbk]
    rfl
  have hnd :
      ¬ (icaoValues (((p ++ r1 :: q ++ r2 :: s).filter passRow).map (cleanRow now))).Nodup := by
    rw [icaoValues_map_cleanRow]
    intro hnodup
    have hcount := List.nodup_iff_count_le_one.mp hnodup t
    have hfil : (p ++ r1 :: q ++ r2 :: s).filter passRow =
        p.filter passRow ++ r1 :: (q.filter passRow ++ r2 :: s.filter passRow) := by
      simp [List.filter_append, List.filter_cons, h1, h2]
    rw [hfil] at hcount
    simp [List.filterMap_append, List.filterMap_cons, ht1, ht2,
      List.count_append, List.count_cons] at hcount
    omega
  rw [runSteps_cleanup_eq]
  simp only [hsrc, hb]
  rw [if_neg hnd]
  exact ⟨rfl, rfl, rfl⟩

/-- Witness for C10 on a concrete backup with two rows trimming to the
same `icao24`. -/
theorem duplicate_icao24_aborts_migration_witness :
    (runSteps (cleanupSteps "t0") dbDup).res = .error .uniqueViolation ∧
    (runSteps (cleanupSteps "t0") dbDup).db.aircraft = some [] ∧
    (runSteps (cleanupSteps "t0") dbDup).log =
      ["backup_existing_data", "drop_existing_tables", "create_new_table", "migrate_data"] :=
  duplicate_icao24_aborts_migration "t0" [rowD1, rowD2] [] [] [] rowD1 rowD2 "DUP1" dbDup
    rfl rfl (by decide) (by decide) (by decide) (by decide)

end DbCleanup
